import Mathlib

/-!
Verification of `src/integral_trends/src/main.py` from the repository
`ldmp-earthengine-scripts`.

The file shallowly embeds the two pieces of design logic of that module:
the significance-masked trend computation (the Kendall critical-value
table, the per-pixel masking expression of line 58) and the export-job
supervision loop (lines 70-81), together with the `run` entry point
(lines 83-96).

Modelling conventions:
* Raster pixel values are `Option ℚ` — `none` is a masked (missing) pixel,
  following the Earth Engine convention that every pixel carries a mask bit.
* The Earth Engine image operations used on line 58 (`abs`, `lte`, `where`,
  `unmask`) are embedded per their documented per-pixel semantics:
  `lte` is masked wherever its operand is masked; `where` keeps the input
  mask and performs no replacement where its test is masked or false
  (this is why the source ends with an explicit `.unmask(-99999)`);
  `unmask` fills masked pixels with the given value.
* `ee.Array(...).get([i])` builds a deferred server-side computation and
  performs no client-side bounds check; the lookup is therefore embedded as
  an `Option`-valued function (`none` = the server-side evaluation fails),
  and the export descriptor carries that deferred value.
* The blocking poll loop is embedded as a fuel-indexed recursion over a
  status oracle `σ : ℕ → StatusRec`, where `σ n` is the remote job status
  observed after `n` sleeps; `none` as overall result means the loop did
  not reach a terminal state within the provided fuel.  Calls to
  `logger.send_progress` are collected in a trace list, and the
  `sleep(5)` calls are accumulated in a slept-time counter.
-/

namespace IntegralTrends

/-- Google cloud storage bucket for output (main.py line 18,
`BUCKET = "ldmt"`). -/
def BUCKET : String := "ldmt"

/-- Kendall critical-value coefficients for a significance of 0.05
(main.py lines 48-51), reproduced verbatim.  Note the list has 37 entries. -/
def coefficients : List ℚ :=
  [4, 6, 9, 11, 14, 16, 19, 21, 24, 26, 31, 33, 36,
   40, 43, 47, 50, 54, 59, 63, 66, 70, 75, 79, 84,
   88, 93, 97, 102, 106, 111, 115, 120, 126, 131,
   137, 142]

/-- The critical-value lookup `kendall = coefficients.get([period - 4])`
(main.py line 52).  `ee.Array.get` fails (server side) on any out-of-range
index, embedded here as `none`. -/
def kendall (period : ℤ) : Option ℚ :=
  if period - 4 < 0 then none else coefficients.get? (period - 4).toNat

/-- Earth Engine per-pixel `abs`: masked stays masked. -/
def eeAbs (x : Option ℚ) : Option ℚ :=
  x.map (fun v => |v|)

/-- Earth Engine per-pixel `lte` against a constant: masked stays masked. -/
def eeLte (x : Option ℚ) (c : ℚ) : Option Bool :=
  x.map (fun v => decide (v ≤ c))

/-- Earth Engine per-pixel `where`: the input value is replaced by `v`
exactly where the test is present and true; the input mask is preserved
(a masked input stays masked, and a masked test performs no replacement). -/
def eeWhere (input : Option ℚ) (test : Option Bool) (v : ℚ) : Option ℚ :=
  match input, test with
  | none, _ => none
  | some x, some b => if b then some v else some x
  | some x, none => some x

/-- Earth Engine per-pixel `unmask`: fill masked pixels with `v`. -/
def eeUnmask (input : Option ℚ) (v : ℚ) : ℚ :=
  input.getD v

/-- Per-pixel embedding of the masking expression of main.py line 58:
`lf_trend.select('scale').where(mk_trend.abs().lte(kendall), -99999)
.where(lf_trend.select('scale').abs().lte(0.000001), -99999)
.unmask(-99999)`, where `slope` is the pixel of `lf_trend.select('scale')`,
`mk` the pixel of `mk_trend`, and `k` the critical value. -/
def maskPixel (slope mk : Option ℚ) (k : ℚ) : ℚ :=
  eeUnmask
    (eeWhere (eeWhere slope (eeLte (eeAbs mk) k) (-99999))
      (eeLte (eeAbs slope) 0.000001) (-99999))
    (-99999)

/-- Parsed shape of the hard-coded default GeoJSON of main.py line 92:
a feature collection with one feature and a polygon ring of coordinates. -/
structure GeoJson where
  featureType : String
  featureId : String
  name : String
  coordinates : List (ℚ × ℚ)
deriving DecidableEq

/-- The default polygon of main.py line 92 (`json.loads` of the hard-coded
Senegal FeatureCollection), with all 44 ring coordinates reproduced. -/
def default_poly : GeoJson :=
  { featureType := "FeatureCollection"
    featureId := "SEN"
    name := "Senegal"
    coordinates :=
      [(-16.713729, 13.594959), (-17.126107, 14.373516),
       (-17.625043, 14.729541), (-17.185173, 14.919477),
       (-16.700706, 15.621527), (-16.463098, 16.135036),
       (-16.12069, 16.455663), (-15.623666, 16.369337),
       (-15.135737, 16.587282), (-14.577348, 16.598264),
       (-14.099521, 16.304302), (-13.435738, 16.039383),
       (-12.830658, 15.303692), (-12.17075, 14.616834),
       (-12.124887, 13.994727), (-11.927716, 13.422075),
       (-11.553398, 13.141214), (-11.467899, 12.754519),
       (-11.513943, 12.442988), (-11.658301, 12.386583),
       (-12.203565, 12.465648), (-12.278599, 12.35444),
       (-12.499051, 12.33209), (-13.217818, 12.575874),
       (-13.700476, 12.586183), (-15.548477, 12.62817),
       (-15.816574, 12.515567), (-16.147717, 12.547762),
       (-16.677452, 12.384852), (-16.841525, 13.151394),
       (-15.931296, 13.130284), (-15.691001, 13.270353),
       (-15.511813, 13.27857), (-15.141163, 13.509512),
       (-14.712197, 13.298207), (-14.277702, 13.280585),
       (-13.844963, 13.505042), (-14.046992, 13.794068),
       (-14.376714, 13.62568), (-14.687031, 13.630357),
       (-15.081735, 13.876492), (-15.39877, 13.860369),
       (-15.624596, 13.623587), (-16.713729, 13.594959)] }

/-- The geometry-extractor collaborator `util.get_coords(geojson)` of
main.py line 64 (the `landdegradation` package is not part of this module);
it extracts the coordinate ring usable as the export region. -/
def get_coords (g : GeoJson) : List (ℚ × ℚ) :=
  g.coordinates

/-- One remote status response: the record returned by `task.status()`,
with its `state` string and optional `progress` fraction. -/
structure StatusRec where
  state : String
  progress : Option ℚ
deriving DecidableEq

/-- The loop condition of main.py line 73:
`task_state == 'READY' or task_state == 'RUNNING'`. -/
def isActive (st : String) : Bool :=
  st == "READY" || st == "RUNNING"

/-- Fuel-indexed embedding of the poll loop of main.py lines 73-79.  The
status oracle `σ` gives the remote status after each sleep; within one
iteration both `task.status()` calls observe the same record (`sleep(5)` is
the only passage of time).  Each iteration appends one
`logger.send_progress` value (`status.get('progress', 0.0)`) to the trace
and adds 5 to the slept-time counter; the loop condition re-tests the state
string read in the previous iteration.  `none` means the fuel ran out while
the loop was still live. -/
def pollLoop (σ : ℕ → StatusRec) : ℕ → ℕ → String → List ℚ → ℕ → Option (List ℚ × ℕ)
  | 0, _, st, acc, slept =>
    if isActive st then none else some (acc, slept)
  | fuel + 1, step, st, acc, slept =>
    if isActive st then
      pollLoop σ fuel (step + 1) (σ step).state
        (acc ++ [((σ step).progress).getD 0]) (slept + 5)
    else some (acc, slept)

/-- The supervision of one started task (main.py lines 71-79): the initial
`task_state = task.status().get('state')` read, then the poll loop.  Returns
the trace of progress reports and the total slept time, or `none` if the
fuel was insufficient. -/
def superviseTask (σ : ℕ → StatusRec) (fuel : ℕ) : Option (List ℚ × ℕ) :=
  pollLoop σ fuel 0 (σ 0).state [] 0

/-- Python string interpolation of the execution identifier: `None` prints
as the string "None"; a string prints as itself. -/
def formatId : Option String → String
  | none => "None"
  | some s => s

/-- The return expression of main.py line 81:
`"https://{}.storage.googleapis.com/{}.tif".format(BUCKET, EXECUTION_ID)`. -/
def outputUrl (bucket : String) (eid : Option String) : String :=
  "https://" ++ bucket ++ ".storage.googleapis.com/" ++ formatId eid ++ ".tif"

/-- The export descriptor of main.py lines 57-65.  The image field is a
deferred server-side expression; the part of it that can fail — the
critical-value lookup embedded in the masking expression — is recorded as
`imageKendall` (its per-pixel semantics is `maskPixel`, settled separately). -/
structure ExportSpec where
  imageKendall : Option ℚ
  description : Option String
  fileNamePrefix : Option String
  bucket : String
  maxPixels : ℕ
  scale : ℕ
  region : List (ℚ × ℚ)
deriving DecidableEq

/-- Observable outcome of one `integral_trend` invocation: the export
descriptor it built, whether `task.start()` was reached, and the supervision
outcome (progress trace, slept time, returned location). -/
structure TrendRun where
  exportSpec : ExportSpec
  submitted : Bool
  result : Option (List ℚ × ℕ × String)
deriving DecidableEq

/-- Embedding of `integral_trend` (main.py lines 20-81).  The NDVI
aggregation and the trend/statistic reductions are deferred server-side
expressions with no client-side effect; the client-side control flow
computes the period, embeds the (deferred, possibly failing) critical-value
lookup into the export descriptor, starts the task unconditionally, runs
the poll loop, and returns the formatted location string. -/
def integral_trend (year_start year_end : ℤ) (geojson : GeoJson)
    (EXECUTION_ID : Option String) (σ : ℕ → StatusRec) (fuel : ℕ) : TrendRun :=
  let period := year_end - year_start + 1
  let exportSpec : ExportSpec :=
    { imageKendall := kendall period
      description := EXECUTION_ID
      fileNamePrefix := EXECUTION_ID
      bucket := BUCKET
      maxPixels := 10000000000
      scale := 250
      region := get_coords geojson }
  { exportSpec := exportSpec
    submitted := true
    result := (superviseTask σ fuel).map
      (fun p => (p.1, p.2, outputUrl BUCKET EXECUTION_ID)) }

/-- The external request parameters read by `run` (main.py lines 85-94);
each field is optional, mirroring `params.get`. -/
structure Params where
  year_start : Option ℤ
  year_end : Option ℤ
  ENV : Option String
  EXECUTION_ID : Option String
  geojson : Option GeoJson
deriving DecidableEq

/-- Embedding of the `run` entry point (main.py lines 83-96).  `randomId`
stands for the value of `str(random.randint(1, 1000000))` drawn in the
dev branch. -/
def run (params : Params) (randomId : String) (σ : ℕ → StatusRec)
    (fuel : ℕ) : TrendRun :=
  let year_start := params.year_start.getD 2003
  let year_end := params.year_end.getD 2015
  let EXECUTION_ID :=
    if params.ENV = some "dev" then some randomId else params.EXECUTION_ID
  let geojson := params.geojson.getD default_poly
  integral_trend year_start year_end geojson EXECUTION_ID σ fuel

/-- Scripted remote job that is already COMPLETED at the first status read. -/
def scriptDone : ℕ → StatusRec :=
  fun _ => { state := "COMPLETED", progress := none }

/-- Scripted remote job: READY on the first read, then FAILED. -/
def scriptFail : ℕ → StatusRec :=
  fun n => if n = 0 then { state := "READY", progress := none }
    else { state := "FAILED", progress := none }

/-- Scripted remote job: READY on the first read, then CANCELLED. -/
def scriptCancel : ℕ → StatusRec :=
  fun n => if n = 0 then { state := "READY", progress := none }
    else { state := "CANCELLED", progress := none }

/-- Scripted remote job passing through READY, RUNNING, RUNNING, COMPLETED,
with distinct reported progress fractions on the non-terminal polls and no
progress field once COMPLETED. -/
def scriptC5 : ℕ → StatusRec :=
  fun n =>
    if n = 0 then { state := "READY", progress := some (1 / 10) }
    else if n = 1 then { state := "RUNNING", progress := some (1 / 2) }
    else if n = 2 then { state := "RUNNING", progress := some (9 / 10) }
    else { state := "COMPLETED", progress := none }

/-- Scripted remote job that reports RUNNING forever. -/
def scriptForever : ℕ → StatusRec :=
  fun _ => { state := "RUNNING", progress := some (1 / 2) }

/-- A request carrying no parameters at all. -/
def paramsMin : Params :=
  { year_start := none, year_end := none, ENV := none,
    EXECUTION_ID := none, geojson := none }

end IntegralTrends

namespace IntegralTrends

/-- C1 (amended): characterization of the per-pixel mask.  When both slope
and statistic are defined, the pixel keeps the slope iff `|mk| > k` and
`|slope| > 1e-6`, else the sentinel.  A pixel with undefined slope is the
sentinel.  A pixel with a defined slope but an undefined statistic skips the
significance test (the `where` replacement does not fire on a masked test):
it keeps the slope iff `|slope| > 1e-6`. -/
theorem maskPixel_characterization :
    (∀ s z k : ℚ, maskPixel (some s) (some z) k =
      if |z| > k ∧ |s| > 0.000001 then s else -99999)
    ∧ (∀ (z : Option ℚ) (k : ℚ), maskPixel none z k = -99999)
    ∧ (∀ s k : ℚ, maskPixel (some s) none k =
      if |s| > 0.000001 then s else -99999) := by
  refine ⟨?_, ?_, ?_⟩
  · intro s z k
    by_cases h1 : |z| ≤ k <;> by_cases h2 : |s| ≤ 0.000001 <;>
      simp [maskPixel, eeAbs, eeLte, eeWhere, eeUnmask, h1, h2, lt_iff_not_le]
  · intro z k
    cases z <;> rfl
  · intro s k
    by_cases h2 : |s| ≤ 0.000001 <;>
      simp [maskPixel, eeAbs, eeLte, eeWhere, eeUnmask, h2, lt_iff_not_le]

/-- C1 (counterexample): a pixel whose Mann-Kendall statistic is missing but
whose slope is defined and above the negligibility floor keeps its slope
value, contradicting the claim that every pixel with an undefined statistic
holds the sentinel `-99999`. -/
theorem mask_undefined_statistic_keeps_slope :
    maskPixel (some 1) none 4 = 1 ∧ (1 : ℚ) ≠ -99999 := by
  constructor
  · have h2 : ¬((1 : ℚ) ≤ 0.000001) := by norm_num
    simp [maskPixel, eeAbs, eeLte, eeWhere, eeUnmask, h2]
  · norm_num

/-- C3 (amended): the lookup succeeds exactly for periods 4 through 40 —
the table has 37 entries, so index `period - 4` is in range iff
`4 ≤ period ≤ 40` — and on that domain it returns the table entry at index
`period - 4`; outside it, the lookup fails. -/
theorem kendall_domain :
    (∀ p : ℤ, (kendall p).isSome ↔ (4 ≤ p ∧ p ≤ 40))
    ∧ coefficients.length = 37
    ∧ (∀ p : ℤ, (p < 4 ∨ 40 < p) → kendall p = none) := by
  have hlen : coefficients.length = 37 := rfl
  have hiff : ∀ p : ℤ, (kendall p).isSome ↔ (4 ≤ p ∧ p ≤ 40) := by
    intro p
    unfold kendall
    split
    · simp only [Option.isSome_none, Bool.false_eq_true, false_iff]
      omega
    · simp only [List.get?_eq_getElem?, Option.isSome_iff_ne_none, ne_eq,
        List.getElem?_eq_none_iff, hlen, not_le]
      omega
  refine ⟨hiff, hlen, ?_⟩
  intro p hp
  have h := (hiff p).not
  have : ¬(kendall p).isSome := by
    rw [h]
    omega
  cases hk : kendall p
  · rfl
  · rw [hk] at this
    simp at this

/-- C3 (witness): the lookup indeed fails at the out-of-domain periods
3 and 41. -/
theorem kendall_domain_witness :
    kendall 3 = none ∧ kendall 41 = none :=
  ⟨kendall_domain.2.2 3 (Or.inl (by decide)),
   kendall_domain.2.2 41 (Or.inr (by decide))⟩

/-- C3 (counterexample): period 40 succeeds — `kendall 40 = some 142` — so
the table is a 37-entry table with domain `[4, 40]`, not a 36-entry table
with domain `[4, 39]` as claimed. -/
theorem kendall_40_succeeds :
    kendall 40 = some 142 ∧ coefficients.length = 37 := by
  constructor <;> rfl

/-- C4 (amended): the lookup maps period 4 to 4 (as claimed), but period 7
maps to 11 (not 14) and period 13 maps to 26 (not 40); the values 14 and 40
sit at periods 8 and 17 respectively. -/
theorem kendall_values :
    kendall 4 = some 4 ∧ kendall 7 = some 11 ∧ kendall 13 = some 26
    ∧ kendall 8 = some 14 ∧ kendall 17 = some 40 := by
  refine ⟨rfl, rfl, rfl, rfl, rfl⟩

/-- C4 (counterexample): the lookup gives `some 11` at period 7 and
`some 26` at period 13, not the claimed 14 and 40. -/
theorem kendall_7_is_11 :
    kendall 7 = some 11 ∧ kendall 13 = some 26
    ∧ (11 : ℚ) ≠ 14 ∧ (26 : ℚ) ≠ 40 := by
  refine ⟨rfl, rfl, by decide, by decide⟩

/-- Unfolding of `pollLoop` at positive fuel. -/
theorem pollLoop_succ (σ : ℕ → StatusRec) (fuel step : ℕ) (st : String)
    (acc : List ℚ) (slept : ℕ) :
    pollLoop σ (fuel + 1) step st acc slept =
      if isActive st then
        pollLoop σ fuel (step + 1) (σ step).state
          (acc ++ [((σ step).progress).getD 0]) (slept + 5)
      else some (acc, slept) := rfl

/-- When the tested state string is terminal, the loop exits at once with
the accumulated trace and slept time, whatever the fuel. -/
theorem pollLoop_inactive (σ : ℕ → StatusRec) (fuel step : ℕ) (st : String)
    (acc : List ℚ) (slept : ℕ) (h : isActive st = false) :
    pollLoop σ fuel step st acc slept = some (acc, slept) := by
  cases fuel <;> simp [pollLoop, h]

/-- Full run of the loop: if the oracle is active at offsets `step` through
`step + T - 1` and terminal at `step + T`, the loop performs `T + 1`
iterations, emitting one progress report per iteration (the last one taken
from the terminal record) and sleeping 5 units per iteration. -/
theorem pollLoop_run (σ : ℕ → StatusRec) :
    ∀ (T fuel step : ℕ) (st : String) (acc : List ℚ) (slept : ℕ),
      isActive st = true →
      (∀ i, i < T → isActive (σ (step + i)).state = true) →
      isActive (σ (step + T)).state = false →
      T + 1 ≤ fuel →
      pollLoop σ fuel step st acc slept =
        some (acc ++ (List.range (T + 1)).map
            (fun i => ((σ (step + i)).progress).getD 0),
          slept + 5 * (T + 1)) := by
  intro T
  induction T with
  | zero =>
    intro fuel step st acc slept hst _ hT hfuel
    obtain ⟨f, rfl⟩ : ∃ f, fuel = f + 1 := ⟨fuel - 1, by omega⟩
    have hT' : isActive (σ step).state = false := by simpa using hT
    rw [pollLoop_succ, if_pos hst, pollLoop_inactive σ f _ _ _ _ hT']
    simp [List.range_succ]
  | succ T ih =>
    intro fuel step st acc slept hst hlt hT hfuel
    obtain ⟨f, rfl⟩ : ∃ f, fuel = f + 1 := ⟨fuel - 1, by omega⟩
    rw [pollLoop_succ, if_pos hst]
    have h0 : isActive (σ step).state = true := by
      have := hlt 0 (by omega)
      simpa using this
    have hlt' : ∀ i, i < T → isActive (σ (step + 1 + i)).state = true := by
      intro i hi
      have h := hlt (i + 1) (by omega)
      have e : step + (i + 1) = step + 1 + i := by omega
      rwa [e] at h
    have hT' : isActive (σ (step + 1 + T)).state = false := by
      have e : step + (T + 1) = step + 1 + T := by omega
      rwa [e] at hT
    rw [ih f (step + 1) (σ step).state _ _ h0 hlt' hT' (by omega)]
    refine congrArg some ?_
    simp only [Prod.mk.injEq]
    constructor
    · rw [List.append_assoc]
      congr 1
      rw [List.range_succ_eq_map (T + 1), List.map_cons, List.map_map,
        List.singleton_append]
      have efun : (fun i => ((σ (step + 1 + i)).progress).getD 0) =
          ((fun i => ((σ (step + i)).progress).getD 0) ∘ Nat.succ) := by
        funext i
        simp only [Function.comp_apply]
        have e : step + 1 + i = step + Nat.succ i := by omega
        rw [e]
      rw [efun]
      simp
    · omega

/-- Entry into the loop with a terminal first status: no iteration runs. -/
theorem superviseTask_inactive (σ : ℕ → StatusRec) (fuel : ℕ)
    (h : isActive (σ 0).state = false) :
    superviseTask σ fuel = some ([], 0) :=
  pollLoop_inactive σ fuel 0 (σ 0).state [] 0 h

/-- Supervision of a job whose status is active at polls `0` to `T - 1` and
terminal at poll `T` (with `T` positive): `T + 1` progress reports, the
`i`-th taken from the `i`-th status record, and `5 * (T + 1)` slept units. -/
theorem superviseTask_run (σ : ℕ → StatusRec) (T fuel : ℕ)
    (hT0 : 0 < T)
    (hlt : ∀ i, i < T → isActive (σ i).state = true)
    (hT : isActive (σ T).state = false)
    (hfuel : T + 1 ≤ fuel) :
    superviseTask σ fuel =
      some ((List.range (T + 1)).map (fun i => ((σ i).progress).getD 0),
        5 * (T + 1)) := by
  have h0 : isActive (σ 0).state = true := hlt 0 hT0
  have h := pollLoop_run σ T fuel 0 (σ 0).state [] 0 h0
    (by intro i hi; simpa using hlt i hi) (by simpa using hT) hfuel
  simpa [superviseTask] using h

/-- If the oracle reports an active state forever, the loop consumes any
amount of fuel without producing a result. -/
theorem pollLoop_none (σ : ℕ → StatusRec)
    (hall : ∀ n, isActive (σ n).state = true) :
    ∀ (fuel step : ℕ) (st : String) (acc : List ℚ) (slept : ℕ),
      isActive st = true → pollLoop σ fuel step st acc slept = none := by
  intro fuel
  induction fuel with
  | zero =>
    intro step st acc slept hst
    simp [pollLoop, hst]
  | succ f ih =>
    intro step st acc slept hst
    rw [pollLoop_succ, if_pos hst]
    exact ih (step + 1) _ _ _ (hall step)

/-- Sleep accounting: on any completed run, the slept time grows by exactly
5 units per emitted progress report. -/
theorem pollLoop_slept (σ : ℕ → StatusRec) :
    ∀ (fuel step : ℕ) (st : String) (acc : List ℚ) (slept : ℕ)
      (tr : List ℚ) (sl : ℕ),
      pollLoop σ fuel step st acc slept = some (tr, sl) →
      sl + 5 * acc.length = slept + 5 * tr.length := by
  intro fuel
  induction fuel with
  | zero =>
    intro step st acc slept tr sl h
    cases hst : isActive st <;> simp [pollLoop, hst] at h
    obtain ⟨h1, h2⟩ := h
    subst h1
    subst h2
    omega
  | succ f ih =>
    intro step st acc slept tr sl h
    cases hst : isActive st
    · rw [pollLoop_succ, if_neg (by simp [hst])] at h
      simp only [Option.some_inj, Prod.mk.injEq] at h
      obtain ⟨h1, h2⟩ := h
      subst h1
      subst h2
      omega
    · rw [pollLoop_succ, if_pos hst] at h
      have := ih (step + 1) _ _ _ _ _ h
      simp only [List.length_append, List.length_cons, List.length_nil] at this
      omega

/-- C2 (amended): when the remote job reaches FAILED or CANCELLED the
supervisor exits the loop exactly as on COMPLETED and returns the output
location string; no exception of any kind is raised (no
`ExportFailedError` or `ExportCancelledError` exists in the code). -/
theorem terminal_states_return_location :
    (∀ (y1 y2 : ℤ) (g : GeoJson) (eid : Option String) (σ : ℕ → StatusRec)
      (fuel : ℕ) (tr : List ℚ) (sl : ℕ),
      superviseTask σ fuel = some (tr, sl) →
      (integral_trend y1 y2 g eid σ fuel).result =
        some (tr, sl, outputUrl BUCKET eid))
    ∧ (integral_trend 2003 2015 default_poly (some "x") scriptFail 3).result =
        some ([0, 0], 10, "https://ldmt.storage.googleapis.com/x.tif")
    ∧ (integral_trend 2003 2015 default_poly (some "x") scriptCancel 3).result =
        some ([0, 0], 10, "https://ldmt.storage.googleapis.com/x.tif") := by
  refine ⟨?_, rfl, rfl⟩
  intro y1 y2 g eid σ fuel tr sl h
  simp [integral_trend, h]

/-- C2 (witness): instantiation of the general part at a scripted sequence
ending in FAILED. -/
theorem terminal_states_return_location_witness :
    (integral_trend 2003 2015 default_poly (some "w") scriptFail 3).result =
      some ([0, 0], 10, outputUrl BUCKET (some "w")) :=
  terminal_states_return_location.1 2003 2015 default_poly (some "w")
    scriptFail 3 [0, 0] 10 rfl

/-- C2 (counterexample): for the scripted status sequence READY, FAILED the
call does return a location string, contradicting the claim that a
FAILED-ending sequence never returns one (and no error is raised, since the
embedding is total). -/
theorem failed_script_returns_location :
    ((integral_trend 2003 2015 default_poly (some "x") scriptFail 3).result).isSome
      = true
    ∧ (scriptFail 1).state = "FAILED" := by
  exact ⟨rfl, rfl⟩

/-- C5 (amended): one progress report is sent per loop iteration — the
remote-reported fraction, defaulting to 0.0 — but the loop condition tests
the state string read in the previous iteration, so one extra iteration runs
after the job turns terminal.  For a job active at polls `0..T-1` and
terminal at poll `T` there are `T + 1` reports (the last taken from the
terminal record); for the scripted sequence READY, RUNNING, RUNNING,
COMPLETED that is exactly 4 reports (not 3), the last one 0.0, after which
the location is returned. -/
theorem poll_reports_characterization :
    (∀ (σ : ℕ → StatusRec) (T fuel : ℕ), 0 < T →
      (∀ i, i < T → isActive (σ i).state = true) →
      isActive (σ T).state = false → T + 1 ≤ fuel →
      superviseTask σ fuel =
        some ((List.range (T + 1)).map (fun i => ((σ i).progress).getD 0),
          5 * (T + 1)))
    ∧ (∀ (σ : ℕ → StatusRec) (fuel : ℕ), isActive (σ 0).state = false →
      superviseTask σ fuel = some ([], 0))
    ∧ superviseTask scriptC5 10 = some ([1 / 10, 1 / 2, 9 / 10, 0], 20) := by
  refine ⟨?_, superviseTask_inactive, rfl⟩
  intro σ T fuel hT0 hlt hT hfuel
  exact superviseTask_run σ T fuel hT0 hlt hT hfuel

/-- C5 (witness): the general part instantiated at the scripted sequence
READY, RUNNING, RUNNING, COMPLETED with `T = 3`. -/
theorem poll_reports_characterization_witness :
    superviseTask scriptC5 10 =
      some ((List.range 4).map (fun i => ((scriptC5 i).progress).getD 0),
        5 * 4) :=
  poll_reports_characterization.1 scriptC5 3 10 (by decide) (by decide)
    (by decide) (by decide)

/-- C5 (counterexample): the scripted sequence READY, RUNNING, RUNNING,
COMPLETED yields 4 progress reports, not the claimed 3. -/
theorem four_reports_not_three :
    (superviseTask scriptC5 10).map (fun p => p.1.length) = some 4
    ∧ (4 : ℕ) ≠ 3 := by
  exact ⟨rfl, by decide⟩

/-- C6: on every completed supervision the returned location is exactly the
string built from the fixed bucket constant and the execution identifier;
in particular for execution id "42" (bucket being the constant "ldmt") the
location is "https://ldmt.storage.googleapis.com/42.tif". -/
theorem outputUrl_deterministic :
    (∀ (y1 y2 : ℤ) (g : GeoJson) (eid : Option String) (σ : ℕ → StatusRec)
      (fuel : ℕ),
      ((integral_trend y1 y2 g eid σ fuel).result).map (fun r => r.2.2) =
        (superviseTask σ fuel).map (fun _ =>
          "https://" ++ BUCKET ++ ".storage.googleapis.com/"
            ++ formatId eid ++ ".tif"))
    ∧ (integral_trend 2003 2015 default_poly (some "42") scriptDone 1).result =
        some ([], 0, "https://ldmt.storage.googleapis.com/42.tif") := by
  refine ⟨?_, rfl⟩
  intro y1 y2 g eid σ fuel
  simp only [integral_trend, Option.map_map]
  cases superviseTask σ fuel <;> rfl

/-- C7 (amended): no validation happens before submission.  For every
request the export descriptor is built and the task started; when the period
lies outside the table's domain the critical-value node embedded in the
submitted computation is the failing one (`none`), so the failure can only
surface on the remote side, after submission. -/
theorem export_always_submitted :
    ∀ (y1 y2 : ℤ) (g : GeoJson) (eid : Option String) (σ : ℕ → StatusRec)
      (fuel : ℕ),
      (integral_trend y1 y2 g eid σ fuel).submitted = true
      ∧ ((y2 - y1 + 1 < 4 ∨ 40 < y2 - y1 + 1) →
        (integral_trend y1 y2 g eid σ fuel).exportSpec.imageKendall = none) := by
  intro y1 y2 g eid σ fuel
  refine ⟨rfl, ?_⟩
  intro h
  show kendall (y2 - y1 + 1) = none
  unfold kendall
  rcases h with h | h
  · rw [if_pos (by omega)]
  · rw [if_neg (by omega)]
    rw [List.get?_eq_getElem?]
    refine List.getElem?_eq_none ?_
    have hlen : coefficients.length = 37 := rfl
    rw [hlen]
    omega

/-- C7 (witness): a request with period 3 (years 2003-2005) is still
submitted, with the failing lookup embedded. -/
theorem export_always_submitted_witness :
    (integral_trend 2003 2005 default_poly (some "x") scriptDone 1).submitted
      = true
    ∧ (integral_trend 2003 2005 default_poly (some "x") scriptDone 1).exportSpec.imageKendall
      = none :=
  ⟨(export_always_submitted 2003 2005 default_poly (some "x") scriptDone 1).1,
   (export_always_submitted 2003 2005 default_poly (some "x") scriptDone 1).2
     (by decide)⟩

/-- C7 (counterexample): for the out-of-domain period 3 the lookup fails,
yet the export is submitted — no error is surfaced before submission. -/
theorem out_of_domain_period_still_submits :
    kendall 3 = none
    ∧ (integral_trend 2003 2005 default_poly (some "y") scriptDone 1).submitted
      = true := by
  exact ⟨rfl, rfl⟩

/-- C8: the supervision loop terminates exactly when the status sequence
reaches a state other than READY or RUNNING — any eventually-terminal
oracle is fully supervised with enough fuel, an always-active oracle
exhausts every fuel bound (no built-in timeout) — and the blocking wait
accounts for exactly 5 time units per poll iteration. -/
theorem supervision_termination :
    (∀ σ : ℕ → StatusRec, (∃ T, isActive (σ T).state = false) →
      ∃ fuel tr sl, superviseTask σ fuel = some (tr, sl))
    ∧ (∀ σ : ℕ → StatusRec, (∀ n, isActive (σ n).state = true) →
      ∀ fuel, superviseTask σ fuel = none)
    ∧ (∀ (σ : ℕ → StatusRec) (fuel : ℕ) (tr : List ℚ) (sl : ℕ),
      superviseTask σ fuel = some (tr, sl) → sl = 5 * tr.length) := by
  refine ⟨?_, ?_, ?_⟩
  · intro σ hex
    have hT : isActive (σ (Nat.find hex)).state = false := Nat.find_spec hex
    have hmin : ∀ i, i < Nat.find hex → isActive (σ i).state = true := by
      intro i hi
      have h := Nat.find_min hex hi
      revert h
      cases isActive (σ i).state <;> simp
    by_cases h0 : Nat.find hex = 0
    · exact ⟨1, [], 0, superviseTask_inactive σ 1 (h0 ▸ hT)⟩
    · exact ⟨Nat.find hex + 1, _, _,
        superviseTask_run σ (Nat.find hex) (Nat.find hex + 1)
          (Nat.pos_of_ne_zero h0) hmin hT (le_refl _)⟩
  · intro σ hall fuel
    exact pollLoop_none σ hall fuel 0 (σ 0).state [] 0 (hall 0)
  · intro σ fuel tr sl h
    have := pollLoop_slept σ fuel 0 (σ 0).state [] 0 tr sl h
    simpa using this

/-- C8 (witness): the three parts instantiated at concrete oracles — an
immediately COMPLETED job, a forever-RUNNING job, and the READY-FAILED
script whose run slept 10 units for its 2 reports. -/
theorem supervision_termination_witness :
    (∃ fuel tr sl, superviseTask scriptDone fuel = some (tr, sl))
    ∧ superviseTask scriptForever 7 = none
    ∧ (10 : ℕ) = 5 * ([(0 : ℚ), 0] : List ℚ).length :=
  ⟨supervision_termination.1 scriptDone ⟨0, rfl⟩,
   supervision_termination.2.1 scriptForever (fun _ => rfl) 7,
   supervision_termination.2.2 scriptFail 3 [0, 0] 10 rfl⟩

/-- C9: when the environment flag is not "dev" and no execution identifier
is supplied, `run` proceeds with identifier `None`: it behaves exactly as
`integral_trend` called with no identifier, and a successful supervision
returns the location "https://ldmt.storage.googleapis.com/None.tif". -/
theorem run_without_execution_id :
    ∀ (params : Params) (randomId : String) (σ : ℕ → StatusRec) (fuel : ℕ),
      params.ENV ≠ some "dev" → params.EXECUTION_ID = none →
      (run params randomId σ fuel =
        integral_trend (params.year_start.getD 2003)
          (params.year_end.getD 2015) (params.geojson.getD default_poly)
          none σ fuel)
      ∧ (∀ (tr : List ℚ) (sl : ℕ) (url : String),
        (run params randomId σ fuel).result = some (tr, sl, url) →
        url = "https://ldmt.storage.googleapis.com/None.tif") := by
  intro params randomId σ fuel h1 h2
  have hrun : run params randomId σ fuel =
      integral_trend (params.year_start.getD 2003)
        (params.year_end.getD 2015) (params.geojson.getD default_poly)
        none σ fuel := by
    rw [run, if_neg h1, h2]
  refine ⟨hrun, ?_⟩
  intro tr sl url h
  rw [hrun] at h
  have hres : (integral_trend (params.year_start.getD 2003)
      (params.year_end.getD 2015) (params.geojson.getD default_poly)
      none σ fuel).result =
      (superviseTask σ fuel).map
        (fun p => (p.1, p.2, outputUrl BUCKET none)) := rfl
  rw [hres] at h
  cases hs : superviseTask σ fuel with
  | none =>
    rw [hs] at h
    simp at h
  | some p =>
    rw [hs] at h
    simp at h
    exact h.2.2.symm

/-- C9 (witness): a request with no parameters at all (so `ENV` is absent
and no identifier is supplied) runs as `integral_trend` with identifier
`None` and the defaults. -/
theorem run_without_execution_id_witness :
    run paramsMin "r" scriptDone 1 =
      integral_trend 2003 2015 default_poly none scriptDone 1 :=
  (run_without_execution_id paramsMin "r" scriptDone 1 (by decide) rfl).1

/-- C10: when the request omits the geometry, `run` substitutes the
hard-coded default Senegal polygon — the export region is the default
ring, the run is identical to one that passes the default explicitly, and
submission still happens (an absent geometry is never an error). -/
theorem run_default_geojson :
    ∀ (params : Params) (randomId : String) (σ : ℕ → StatusRec) (fuel : ℕ),
      params.geojson = none →
      (run params randomId σ fuel).exportSpec.region = default_poly.coordinates
      ∧ run params randomId σ fuel =
        run { params with geojson := some default_poly } randomId σ fuel
      ∧ (run params randomId σ fuel).submitted = true := by
  intro params randomId σ fuel h
  refine ⟨?_, ?_, rfl⟩
  · rw [run, h]
    rfl
  · rw [run, run, h]
    rfl

/-- C10 (witness): the empty request gets the Senegal default region. -/
theorem run_default_geojson_witness :
    (run paramsMin "r" scriptDone 1).exportSpec.region =
      default_poly.coordinates :=
  (run_default_geojson paramsMin "r" scriptDone 1 rfl).1

end IntegralTrends
